import Mathlib

/-!
Verification of the `LogitechHero502` driver (`liquidctl/driver/logitech_g502.py`).

The driver is embedded shallowly:

* Python values that flow through dynamically-typed variables are modelled by
  `PyVal` (the `channel` and `mode` local variables are rebound from `str` to
  `int` midway through `set_color`, and the faithfulness of that rebinding
  matters for the dead color-count check).
* Fallible operations return `Except PyError α`; a raised exception is `.error`.
* Transport side effects (`clear_enqueued_reports`, `write`, `read`) are
  modelled as an ordered trace of `Action`s returned on success.  In the
  source every `raise` occurs before the first transport call, so an
  exceptional run has an empty trace.
-/

namespace LogitechG502

/-- A dynamically-typed Python value (only the types this driver uses). -/
inductive PyVal where
  | int (n : Int)
  | str (s : String)
deriving DecidableEq, Repr

/-- Python `==` between dynamically-typed values: values of different types
compare unequal. -/
def pyEq : PyVal → PyVal → Bool
  | .int a, .int b => a == b
  | .str a, .str b => a == b
  | _, _ => false

/-- Exceptions raised by the driver: Python `ValueError` (with its message),
Python `TypeError`, and `liquidctl.error.NotSupportedByDevice`. -/
inductive PyError where
  | valueError (msg : String)
  | typeError (msg : String)
  | notSupportedByDevice
deriving DecidableEq, Repr

/-- A transport side effect on the HID device handle. -/
inductive Action where
  | clearEnqueuedReports
  | write (buf : List Nat)
  | read (length : Nat)
deriving DecidableEq, Repr

/-- `buf[i] = v` on a Python `bytearray`: stores the value when it is an
integer in `range(0, 256)`, raises `ValueError` when it is an out-of-range
integer, and raises `TypeError` when it is not an integer.  No clamping or
truncation happens. -/
def bytearray_set (buf : List Nat) (i : Nat) (v : PyVal) :
    Except PyError (List Nat) :=
  match v with
  | .int n =>
      if 0 ≤ n ∧ n < 256 then .ok (buf.set i n.toNat)
      else .error (.valueError "byte must be in range(0, 256)")
  | .str _ => .error (.typeError "an integer is required")

/-- `_REPORT_LENGTH = 20` (source line 150). -/
def _REPORT_LENGTH : Nat := 20

/-- Python `str.lower()` (for the ASCII channel/mode strings this driver
receives): lowercases each character. -/
def py_lower (s : String) : String :=
  String.mk (s.data.map Char.toLower)

/-- The `if`/`elif` chain rebinding `channel` (source lines 124–129): maps
`"dpi"` to `0x00` and `"logo"` to `0x01`, otherwise raises `ValueError`. -/
def parse_channel (channel : String) : Except PyError PyVal :=
  if channel = "dpi" then .ok (.int 0x00)
  else if channel = "logo" then .ok (.int 0x01)
  else .error (.valueError
    ("Channel " ++ channel ++ " invalid, must be one of (\"dpi\", \"logo\")"))

/-- The `if`/`elif` chain rebinding `mode` (source lines 132–141): maps
`"off"`/`"fixed"`/`"breathing"`/`"rainbow"` to `0x00`–`0x03`, otherwise
raises `ValueError`. -/
def parse_mode (mode : String) : Except PyError PyVal :=
  if mode = "off" then .ok (.int 0x00)
  else if mode = "fixed" then .ok (.int 0x01)
  else if mode = "breathing" then .ok (.int 0x02)
  else if mode = "rainbow" then .ok (.int 0x03)
  else .error (.valueError
    ("Mode " ++ mode ++
      " invalid, must be one of (\"off\", \"fixed\", \"breathing\", \"rainbow\")"))

/-- `color = (0,0,0) if len(colors) == 0 else colors[0]` (source line 148). -/
def resolve_color (colors : List (Int × Int × Int)) : Int × Int × Int :=
  match colors with
  | [] => (0, 0, 0)
  | c :: _ => c

/-- `LogitechHero502.set_color(self, channel, mode, colors, unsafe=None,
**kwargs)` (source lines 84–170).  `u` models the `unsafe` keyword argument
and `kwargs` the extra keyword arguments; the body never reads either.  The
result is the ordered trace of transport actions on success. -/
def set_color (channel mode : String) (colors : List (Int × Int × Int))
    (u : Option (List String)) (kwargs : List (String × PyVal)) :
    Except PyError (List Action) := do
  let _ := u
  let _ := kwargs
  let channel := (py_lower channel)
  let mode := (py_lower mode)
  let channelV ← parse_channel channel
  let modeV ← parse_mode mode
  -- Source line 145: `if (mode == 'fixed' or mode == 'breathing') and
  -- len(colors) != 1:`.  At this point `mode` has been rebound to an int,
  -- so both comparisons against strings are always false.
  if (pyEq modeV (.str "fixed") || pyEq modeV (.str "breathing"))
      && colors.length != 1 then
    throw (.valueError "One color must be given")
  let color := resolve_color colors
  let buf : List Nat := List.replicate (_REPORT_LENGTH + 1) 0
  let buf ← bytearray_set buf 1 (.int 0x11)
  let buf ← bytearray_set buf 2 (.int 0xFF)
  let buf ← bytearray_set buf 3 (.int 0x02)
  let buf ← bytearray_set buf 4 (.int 0x3A)
  let buf ← bytearray_set buf 5 channelV
  let buf ← bytearray_set buf 6 modeV
  let buf ← bytearray_set buf 7 (.int color.1)
  let buf ← bytearray_set buf 8 (.int color.2.1)
  let buf ← bytearray_set buf 9 (.int color.2.2)
  let buf ← if pyEq modeV (.int 0x01) then bytearray_set buf 10 (.int 0x02)
            else pure buf
  pure [Action.clearEnqueuedReports, Action.write buf,
        Action.read _REPORT_LENGTH]

/-- `set_fixed_speed(self, channel, duty, **kwargs)` (source lines 74–77):
raises `NotSupportedByDevice` unconditionally, before any transport call. -/
def set_fixed_speed (channel : String) (duty : Int)
    (kwargs : List (String × PyVal)) : Except PyError (List Action) :=
  .error .notSupportedByDevice

/-- `set_speed_profile(self, channel, profile, **kwargs)` (source lines
79–82): raises `NotSupportedByDevice` unconditionally, before any transport
call. -/
def set_speed_profile (channel : String) (profile : List (Int × Int))
    (kwargs : List (String × PyVal)) : Except PyError (List Action) :=
  .error .notSupportedByDevice

/-- The driver method `initialize(self, pump_mode='balanced', **kwargs)`
(source lines 51–65): returns the empty status list and performs no
transport action.  (Named `init_device` here because the Python method name
is a reserved word in Lean.) -/
def init_device (pump_mode : String) (kwargs : List (String × PyVal)) :
    List (String × PyVal × String) × List Action :=
  ([], [])

/-- `get_status(self, **kwargs)` (source lines 67–72): returns the empty
status list and performs no transport action. -/
def get_status (kwargs : List (String × PyVal)) :
    List (String × PyVal × String) × List Action :=
  ([], [])

/-- The lowercase hexadecimal digit character for a value below 16
(`'0'`–`'9'`, `'a'`–`'f'`), as used by Python `format(v, 'x')`. -/
def hexDigitChar (d : Nat) : Char :=
  if d < 10 then Char.ofNat (48 + d) else Char.ofNat (87 + d)

/-- Lowercase hexadecimal rendering of a natural number, most significant
digit first, without padding: the digits of Python `format(v, 'x')`. -/
def toHex (n : Nat) : List Char :=
  if n < 16 then [hexDigitChar n]
  else toHex (n / 16) ++ [hexDigitChar (n % 16)]
decreasing_by
  exact Nat.div_lt_self (by omega) (by omega)

/-- Python `f'{v:04x}'`: the hexadecimal digits of `v`, left-padded with
`'0'` to a minimum width of 4. -/
def format04x (n : Nat) : String :=
  String.mk (List.replicate (4 - (toHex n).length) '0' ++ toHex n)

/-- The scanning loop of `re.findall(r'\d+', s)`: `cur` holds the digits of
the run currently being read, most recent first; a completed run is emitted
when a non-digit (or the end of the string) is reached. -/
def digitRunsAux : List Char → List Char → List String
  | [], cur => if cur.isEmpty then [] else [String.mk cur.reverse]
  | c :: rest, cur =>
      if c.isDigit then digitRunsAux rest (c :: cur)
      else if cur.isEmpty then digitRunsAux rest []
      else String.mk cur.reverse :: digitRunsAux rest []

/-- `re.findall(r'\d+', s)` on the characters of `s`: every maximal run of
decimal digits, in order of appearance. -/
def digitRuns (l : List Char) : List String :=
  digitRunsAux l []

/-- `connect` (source lines 39–49): builds the two `RuntimeStorage` key
prefix strings, `vid<VVVV>_pid<PPPP>` from the vendor and product IDs and
`loc` followed by the `_`-joined digit runs of the HID address. -/
def connect (vendor_id product_id : Nat) (address : String) :
    String × String :=
  ("vid" ++ format04x vendor_id ++ "_pid" ++ format04x product_id,
   "loc" ++ String.intercalate "_" (digitRuns address.data))

/-- The numeric value of a lowercase hexadecimal digit character
(specification-side decoder, used to state that `format04x` really renders
the number it was given). -/
def hexDigitVal (c : Char) : Nat :=
  if c.toNat ≥ 97 then c.toNat - 87 else c.toNat - 48

/-- The number denoted by a big-endian string of hexadecimal digit
characters (specification-side decoder). -/
def hexVal (l : List Char) : Nat :=
  l.foldl (fun a c => a * 16 + hexDigitVal c) 0

/-! ### Helper lemmas -/

theorem parse_channel_ok_cases (channel : String) (v : PyVal)
    (h : parse_channel channel = .ok v) :
    (channel = "dpi" ∧ v = .int 0) ∨ (channel = "logo" ∧ v = .int 1) := by
  unfold parse_channel at h
  split at h <;> simp_all
  split at h <;> simp_all

theorem parse_mode_ok_cases (mode : String) (v : PyVal)
    (h : parse_mode mode = .ok v) :
    (mode = "off" ∧ v = .int 0) ∨ (mode = "fixed" ∧ v = .int 1) ∨
    (mode = "breathing" ∧ v = .int 2) ∨ (mode = "rainbow" ∧ v = .int 3) := by
  unfold parse_mode at h
  split at h <;> simp_all
  split at h <;> simp_all
  split at h <;> simp_all
  split at h <;> simp_all

theorem buf_set_chain (c5 c6 c7 c8 c9 : Nat) :
    ((((((((((List.replicate 21 (0 : Nat)).set 1 17).set 2 255).set
        3 2).set 4 58).set 5 c5).set 6 c6).set 7 c7).set 8 c8).set 9 c9) =
      [0, 17, 255, 2, 58, c5, c6, c7, c8, c9,
       0, 0, 0, 0, 0, 0, 0, 0, 0, 0, 0] := by
  rfl

theorem buf_set_flag (c5 c6 c7 c8 c9 : Nat) :
    ([0, 17, 255, 2, 58, c5, c6, c7, c8, c9,
      0, 0, 0, 0, 0, 0, 0, 0, 0, 0, 0] : List Nat).set 10 2 =
      [0, 17, 255, 2, 58, c5, c6, c7, c8, c9,
       2, 0, 0, 0, 0, 0, 0, 0, 0, 0, 0] := by
  rfl

/-- Normal form of a `set_color` run whose channel and mode parse and whose
resolved color components are all in `range(0, 256)`: the trace is clear,
then one write of the fully built 21-byte buffer, then a 20-byte read. -/
theorem set_color_ok_form (channel mode : String)
    (colors : List (Int × Int × Int)) (u : Option (List String))
    (kwargs : List (String × PyVal)) (ch m r g b : Int)
    (hch : parse_channel (py_lower channel) = .ok (.int ch))
    (hm : parse_mode (py_lower mode) = .ok (.int m))
    (hc : resolve_color colors = (r, g, b))
    (hr : 0 ≤ r ∧ r < 256) (hg : 0 ≤ g ∧ g < 256) (hb : 0 ≤ b ∧ b < 256) :
    set_color channel mode colors u kwargs = .ok
      [Action.clearEnqueuedReports,
       Action.write [0, 0x11, 0xFF, 0x02, 0x3A, ch.toNat, m.toNat,
         r.toNat, g.toNat, b.toNat, if m = 1 then 2 else 0,
         0, 0, 0, 0, 0, 0, 0, 0, 0, 0],
       Action.read 20] := by
  have hch' : ch = 0 ∨ ch = 1 := by
    rcases parse_channel_ok_cases _ _ hch with ⟨_, h⟩ | ⟨_, h⟩ <;>
      simp_all
  have hm' : m = 0 ∨ m = 1 ∨ m = 2 ∨ m = 3 := by
    rcases parse_mode_ok_cases _ _ hm with ⟨_, h⟩ | ⟨_, h⟩ | ⟨_, h⟩ | ⟨_, h⟩ <;>
      simp_all
  have hchr : 0 ≤ ch ∧ ch < 256 := by omega
  have hmr : 0 ≤ m ∧ m < 256 := by omega
  simp only [set_color, hch, hm, hc, _REPORT_LENGTH, pyEq, Except.bind,
    bind, pure, Bool.false_or, bytearray_set, hr, hg, hb, hchr, hmr,
    if_true, and_self, Bool.false_and, Bool.and_self, ite_true,
    Bool.false_eq_true, if_false, reduceIte]
  norm_num [Except.pure]
  by_cases hm1 : m = 1 <;> simp only [hm1, reduceIte] <;> rfl

/-- A `set_color` run whose channel fails to parse raises that error
(before any transport action: an exceptional run has an empty trace). -/
theorem set_color_channel_error (channel mode : String)
    (colors : List (Int × Int × Int)) (u : Option (List String))
    (kwargs : List (String × PyVal)) (e : PyError)
    (h : parse_channel (py_lower channel) = .error e) :
    set_color channel mode colors u kwargs = .error e := by
  simp [set_color, h, Except.bind, bind]

/-- A `set_color` run whose channel parses but whose mode fails to parse
raises the mode error. -/
theorem set_color_mode_error (channel mode : String)
    (colors : List (Int × Int × Int)) (u : Option (List String))
    (kwargs : List (String × PyVal)) (v : PyVal) (e : PyError)
    (hch : parse_channel (py_lower channel) = .ok v)
    (h : parse_mode (py_lower mode) = .error e) :
    set_color channel mode colors u kwargs = .error e := by
  simp [set_color, hch, h, Except.bind, bind]

/-! ### Claim theorems -/

/-- C1 (code bug): the spec requires `set_color("logo", "breathing",
[(1,2,3),(4,5,6)])` to fail with an invalid-argument error before any device
I/O, but the code's color-count check compares the `mode` variable — already
rebound to the integer `0x02` — against the strings `'fixed'` and
`'breathing'`, so it can never fire: the call succeeds and performs the full
clear/write/read transport sequence, encoding the first color. -/
theorem set_color_breathing_two_colors_still_writes :
    set_color "logo" "breathing" [(1, 2, 3), (4, 5, 6)] none [] = .ok
      [Action.clearEnqueuedReports,
       Action.write [0, 0x11, 0xFF, 0x02, 0x3A, 1, 2, 1, 2, 3,
         0, 0, 0, 0, 0, 0, 0, 0, 0, 0, 0],
       Action.read 20] := by
  rfl

/-- C4: `channel` and `mode` are lowercased first; an unrecognized channel
fails with a `ValueError` naming the offending value and the accepted set,
regardless of `mode` (the channel check runs first); with a recognized
channel, an unrecognized mode fails likewise.  In both cases the run is
exceptional, so its transport trace is empty: nothing is cleared, written
or read. -/
theorem set_color_rejects_unknown_channel_and_mode :
    (∀ (channel mode : String) (colors : List (Int × Int × Int))
        (u : Option (List String)) (kwargs : List (String × PyVal)),
      (py_lower channel) ≠ "dpi" → (py_lower channel) ≠ "logo" →
      set_color channel mode colors u kwargs = .error (.valueError
        ("Channel " ++ (py_lower channel) ++
          " invalid, must be one of (\"dpi\", \"logo\")"))) ∧
    (∀ (channel mode : String) (colors : List (Int × Int × Int))
        (u : Option (List String)) (kwargs : List (String × PyVal)),
      ((py_lower channel) = "dpi" ∨ (py_lower channel) = "logo") →
      (py_lower mode) ≠ "off" → (py_lower mode) ≠ "fixed" →
      (py_lower mode) ≠ "breathing" → (py_lower mode) ≠ "rainbow" →
      set_color channel mode colors u kwargs = .error (.valueError
        ("Mode " ++ (py_lower mode) ++
          " invalid, must be one of (\"off\", \"fixed\", \"breathing\", \"rainbow\")"))) := by
  constructor
  · intro channel mode colors u kwargs h1 h2
    apply set_color_channel_error
    simp [parse_channel, h1, h2]
  · intro channel mode colors u kwargs hch h1 h2 h3 h4
    have hv : ∃ v, parse_channel (py_lower channel) = .ok v := by
      rcases hch with h | h
      · exact ⟨.int 0, by simp [parse_channel, h]⟩
      · exact ⟨.int 1, by simp [parse_channel, h]⟩
    rcases hv with ⟨v, hv⟩
    apply set_color_mode_error _ _ _ _ _ v _ hv
    simp [parse_mode, h1, h2, h3, h4]

/-- C4 witness: `set_color("wheel", "fixed", [(0,0,0)])` fails with the
unknown-channel error, and `set_color("dpi", "purple", [])` fails with the
unknown-mode error. -/
theorem set_color_rejects_unknown_channel_and_mode_witness :
    set_color "wheel" "fixed" [(0, 0, 0)] none [] = .error (.valueError
      "Channel wheel invalid, must be one of (\"dpi\", \"logo\")") ∧
    set_color "dpi" "purple" [] none [] = .error (.valueError
      "Mode purple invalid, must be one of (\"off\", \"fixed\", \"breathing\", \"rainbow\")") :=
  ⟨set_color_rejects_unknown_channel_and_mode.1 "wheel" "fixed" [(0, 0, 0)]
      none [] (by decide) (by decide),
   set_color_rejects_unknown_channel_and_mode.2 "dpi" "purple" [] none []
      (Or.inl (by decide)) (by decide) (by decide) (by decide) (by decide)⟩

/-- C7: `set_fixed_speed` and `set_speed_profile` raise
`NotSupportedByDevice` for every input, with an empty transport trace (no
write, read or clear) and no other effect. -/
theorem speed_operations_not_supported :
    ∀ (c c2 : String) (d : Int) (p : List (Int × Int))
      (k k2 : List (String × PyVal)),
      set_fixed_speed c d k = .error .notSupportedByDevice ∧
      set_speed_profile c2 p k2 = .error .notSupportedByDevice := by
  intro c c2 d p k k2
  exact ⟨rfl, rfl⟩

/-- C8: `initialize` and `get_status` return the empty list of
`(property, value, unit)` tuples and perform no transport action, for every
input. -/
theorem status_operations_are_noops :
    ∀ (pump_mode : String) (k k2 : List (String × PyVal)),
      init_device pump_mode k = ([], []) ∧ get_status k2 = ([], []) := by
  intro pump_mode k k2
  exact ⟨rfl, rfl⟩

/-- C10: the behaviour of `set_color` does not depend on the `unsafe`
argument or on any extra keyword arguments: two calls agreeing on channel,
mode and colors produce identical results — the same error, or
byte-for-byte the same transport trace. -/
theorem set_color_ignores_extra_arguments :
    ∀ (channel mode : String) (colors : List (Int × Int × Int))
      (u1 u2 : Option (List String)) (k1 k2 : List (String × PyVal)),
      set_color channel mode colors u1 k1 = set_color channel mode colors u2 k2 := by
  intro channel mode colors u1 u2 k1 k2
  rfl

/-- C2: for every valid request, the report carries the channel code at
offset 5, the mode code at offset 6, the resolved color at offsets 7–9,
`0x02` at offset 10 exactly when the mode code is 1 (fixed), and zero in
every other non-header byte; in particular `set_color("DPI", "FIXED",
[(10,20,30)])` and `set_color("logo", "off", [])` produce the two reports
the spec lists. -/
theorem set_color_field_encoding :
    (∀ (channel mode : String) (colors : List (Int × Int × Int))
        (u : Option (List String)) (kwargs : List (String × PyVal))
        (ch m r g b : Int),
      parse_channel (py_lower channel) = .ok (.int ch) →
      parse_mode (py_lower mode) = .ok (.int m) →
      resolve_color colors = (r, g, b) →
      0 ≤ r ∧ r < 256 → 0 ≤ g ∧ g < 256 → 0 ≤ b ∧ b < 256 →
      ∃ buf, set_color channel mode colors u kwargs =
          .ok [Action.clearEnqueuedReports, Action.write buf,
               Action.read 20] ∧
        buf.get? 5 = some ch.toNat ∧
        buf.get? 6 = some m.toNat ∧
        buf.get? 7 = some r.toNat ∧
        buf.get? 8 = some g.toNat ∧
        buf.get? 9 = some b.toNat ∧
        buf.get? 10 = some (if m = 1 then 2 else 0) ∧
        (∀ i, i < 21 → i ∉ ([1, 2, 3, 4, 5, 6, 7, 8, 9, 10] : List Nat) →
          buf.get? i = some 0)) ∧
    set_color "DPI" "FIXED" [(10, 20, 30)] none [] = .ok
      [Action.clearEnqueuedReports,
       Action.write [0, 0x11, 0xFF, 0x02, 0x3A, 0x00, 0x01, 10, 20, 30,
         0x02, 0, 0, 0, 0, 0, 0, 0, 0, 0, 0],
       Action.read 20] ∧
    set_color "logo" "off" [] none [] = .ok
      [Action.clearEnqueuedReports,
       Action.write [0, 0x11, 0xFF, 0x02, 0x3A, 0x01, 0x00, 0, 0, 0,
         0, 0, 0, 0, 0, 0, 0, 0, 0, 0, 0],
       Action.read 20] := by
  refine ⟨?_, by rfl, by rfl⟩
  intro channel mode colors u kwargs ch m r g b hch hm hc hr hg hb
  refine ⟨_, set_color_ok_form channel mode colors u kwargs ch m r g b
      hch hm hc hr hg hb, rfl, rfl, rfl, rfl, rfl, rfl, ?_⟩
  intro i hi hmem
  interval_cases i <;> simp_all

/-- C2 witness: the general encoding theorem applied to
`set_color("DPI", "FIXED", [(10,20,30)])`. -/
theorem set_color_field_encoding_witness :
    ∃ buf, set_color "DPI" "FIXED" [(10, 20, 30)] none [] =
        .ok [Action.clearEnqueuedReports, Action.write buf,
             Action.read 20] ∧
      buf.get? 5 = some (Int.toNat 0) ∧
      buf.get? 6 = some (Int.toNat 1) ∧
      buf.get? 7 = some (Int.toNat 10) ∧
      buf.get? 8 = some (Int.toNat 20) ∧
      buf.get? 9 = some (Int.toNat 30) ∧
      buf.get? 10 = some (if (1 : Int) = 1 then 2 else 0) ∧
      (∀ i, i < 21 → i ∉ ([1, 2, 3, 4, 5, 6, 7, 8, 9, 10] : List Nat) →
        buf.get? i = some 0) :=
  set_color_field_encoding.1 "DPI" "FIXED" [(10, 20, 30)] none [] 0 1
    10 20 30 (by rfl) (by rfl) (by rfl) (by decide) (by decide)
    (by decide)

/-- C3: for every valid request, the written buffer is exactly 21 bytes
long and carries the fixed header `0x11, 0xFF, 0x02, 0x3A` at
offsets 1–4. -/
theorem set_color_report_header_and_length :
    ∀ (channel mode : String) (colors : List (Int × Int × Int))
      (u : Option (List String)) (kwargs : List (String × PyVal))
      (ch m r g b : Int),
      parse_channel (py_lower channel) = .ok (.int ch) →
      parse_mode (py_lower mode) = .ok (.int m) →
      resolve_color colors = (r, g, b) →
      0 ≤ r ∧ r < 256 → 0 ≤ g ∧ g < 256 → 0 ≤ b ∧ b < 256 →
      ∃ buf, set_color channel mode colors u kwargs =
          .ok [Action.clearEnqueuedReports, Action.write buf,
               Action.read 20] ∧
        buf.length = 21 ∧
        buf.get? 1 = some 0x11 ∧ buf.get? 2 = some 0xFF ∧
        buf.get? 3 = some 0x02 ∧ buf.get? 4 = some 0x3A := by
  intro channel mode colors u kwargs ch m r g b hch hm hc hr hg hb
  exact ⟨_, set_color_ok_form channel mode colors u kwargs ch m r g b
      hch hm hc hr hg hb, rfl, rfl, rfl, rfl, rfl⟩

/-- C3 witness: the header/length theorem applied to
`set_color("dpi", "rainbow", [])`. -/
theorem set_color_report_header_and_length_witness :
    ∃ buf, set_color "dpi" "rainbow" [] none [] =
        .ok [Action.clearEnqueuedReports, Action.write buf,
             Action.read 20] ∧
      buf.length = 21 ∧
      buf.get? 1 = some 0x11 ∧ buf.get? 2 = some 0xFF ∧
      buf.get? 3 = some 0x02 ∧ buf.get? 4 = some 0x3A :=
  set_color_report_header_and_length "dpi" "rainbow" [] none [] 0 3 0 0 0
    (by rfl) (by rfl) (by rfl) (by decide) (by decide) (by decide)

/-- C6: for every valid request the transport trace is exactly: discard
enqueued reports, then a single write of the fully built buffer, then a
20-byte read — in that order, with no other transport action. -/
theorem set_color_transport_order :
    ∀ (channel mode : String) (colors : List (Int × Int × Int))
      (u : Option (List String)) (kwargs : List (String × PyVal))
      (ch m r g b : Int),
      parse_channel (py_lower channel) = .ok (.int ch) →
      parse_mode (py_lower mode) = .ok (.int m) →
      resolve_color colors = (r, g, b) →
      0 ≤ r ∧ r < 256 → 0 ≤ g ∧ g < 256 → 0 ≤ b ∧ b < 256 →
      ∃ buf, set_color channel mode colors u kwargs =
        .ok [Action.clearEnqueuedReports, Action.write buf,
             Action.read 20] := by
  intro channel mode colors u kwargs ch m r g b hch hm hc hr hg hb
  exact ⟨_, set_color_ok_form channel mode colors u kwargs ch m r g b
      hch hm hc hr hg hb⟩

/-- C6 witness: the ordering theorem applied to
`set_color("logo", "fixed", [(1,2,3)])`. -/
theorem set_color_transport_order_witness :
    ∃ buf, set_color "logo" "fixed" [(1, 2, 3)] none [] =
      .ok [Action.clearEnqueuedReports, Action.write buf,
           Action.read 20] :=
  set_color_transport_order "logo" "fixed" [(1, 2, 3)] none [] 1 1 1 2 3
    (by rfl) (by rfl) (by rfl) (by decide) (by decide) (by decide)

/-- C9: with a valid channel and mode, a resolved color with any component
outside `range(0, 256)` makes `set_color` raise the bytearray assignment
`ValueError` during buffer construction — nothing is clamped or truncated,
and the exceptional run has an empty transport trace (the clear/write/read
sequence starts only after the buffer is fully built). -/
theorem set_color_out_of_range_color_raises :
    ∀ (channel mode : String) (colors : List (Int × Int × Int))
      (u : Option (List String)) (kwargs : List (String × PyVal))
      (v w : PyVal) (r g b : Int),
      parse_channel (py_lower channel) = .ok v →
      parse_mode (py_lower mode) = .ok w →
      resolve_color colors = (r, g, b) →
      ¬(0 ≤ r ∧ r < 256 ∧ 0 ≤ g ∧ g < 256 ∧ 0 ≤ b ∧ b < 256) →
      set_color channel mode colors u kwargs =
        .error (.valueError "byte must be in range(0, 256)") := by
  intro channel mode colors u kwargs v w r g b hch hm hc hout
  have hv : ∃ ch : Int, v = .int ch ∧ 0 ≤ ch ∧ ch < 256 := by
    rcases parse_channel_ok_cases _ _ hch with ⟨_, h⟩ | ⟨_, h⟩
    · exact ⟨0, h, by omega⟩
    · exact ⟨1, h, by omega⟩
  have hw : ∃ m : Int, w = .int m ∧ 0 ≤ m ∧ m < 256 := by
    rcases parse_mode_ok_cases _ _ hm with ⟨_, h⟩ | ⟨_, h⟩ | ⟨_, h⟩ | ⟨_, h⟩
    · exact ⟨0, h, by omega⟩
    · exact ⟨1, h, by omega⟩
    · exact ⟨2, h, by omega⟩
    · exact ⟨3, h, by omega⟩
  obtain ⟨ch, rfl, hchr⟩ := hv
  obtain ⟨m, rfl, hmr⟩ := hw
  simp only [set_color, hch, hm, hc, _REPORT_LENGTH, pyEq, Except.bind,
    bind, Bool.false_or, bytearray_set, hchr, hmr, if_true, and_self,
    Bool.false_and, Bool.and_self, ite_true, Bool.false_eq_true, if_false,
    reduceIte]
  norm_num [Except.pure]
  by_cases hr : 0 ≤ r ∧ r < 256
  · by_cases hg : 0 ≤ g ∧ g < 256
    · have hb : ¬(0 ≤ b ∧ b < 256) := by tauto
      simp [hr, hg, hb, pure, Except.pure]
    · simp [hr, hg, pure, Except.pure]
  · simp [hr, pure, Except.pure]

/-- C9 witness: the out-of-range theorem applied to
`set_color("dpi", "fixed", [(300, 0, 0)])`. -/
theorem set_color_out_of_range_color_raises_witness :
    set_color "dpi" "fixed" [(300, 0, 0)] none [] =
      .error (.valueError "byte must be in range(0, 256)") :=
  set_color_out_of_range_color_raises "dpi" "fixed" [(300, 0, 0)] none []
    (.int 0) (.int 1) 300 0 0 (by rfl) (by rfl) (by rfl)
    (by decide)

/-! ### Hexadecimal formatting lemmas -/

theorem toHex_small (n : Nat) (h : n < 16) : toHex n = [hexDigitChar n] := by
  rw [toHex, if_pos h]

theorem toHex_step (n : Nat) (h : ¬n < 16) :
    toHex n = toHex (n / 16) ++ [hexDigitChar (n % 16)] := by
  rw [toHex]
  rw [if_neg h]

theorem hexDigitVal_hexDigitChar : ∀ d, d < 16 →
    hexDigitVal (hexDigitChar d) = d := by
  decide

theorem hexDigitChar_mem_hex : ∀ d, d < 16 →
    hexDigitChar d ∈ ("0123456789abcdef").data := by
  decide

theorem hexVal_append_digit (l : List Char) (c : Char) :
    hexVal (l ++ [c]) = hexVal l * 16 + hexDigitVal c := by
  simp [hexVal, List.foldl_append]

theorem hexVal_toHex (n : Nat) : hexVal (toHex n) = n := by
  induction n using Nat.strong_induction_on with
  | _ n ih =>
    by_cases h : n < 16
    · rw [toHex_small n h]
      simp [hexVal, hexDigitVal_hexDigitChar n h]
    · rw [toHex_step n h, hexVal_append_digit,
        ih (n / 16) (Nat.div_lt_self (by omega) (by omega)),
        hexDigitVal_hexDigitChar (n % 16) (Nat.mod_lt _ (by omega))]
      omega

theorem toHex_chars (n : Nat) :
    ∀ c ∈ toHex n, c ∈ ("0123456789abcdef").data := by
  induction n using Nat.strong_induction_on with
  | _ n ih =>
    by_cases h : n < 16
    · rw [toHex_small n h]
      intro c hc
      rw [List.mem_singleton] at hc
      subst hc
      exact hexDigitChar_mem_hex n h
    · rw [toHex_step n h]
      intro c hc
      rcases List.mem_append.mp hc with hc | hc
      · exact ih (n / 16) (Nat.div_lt_self (by omega) (by omega)) c hc
      · rw [List.mem_singleton] at hc
        subst hc
        exact hexDigitChar_mem_hex (n % 16) (Nat.mod_lt _ (by omega))

theorem toHex_length_le : ∀ k, 0 < k → ∀ n, n < 16 ^ k →
    (toHex n).length ≤ k := by
  intro k
  induction k with
  | zero => omega
  | succ k ih =>
      intro _ n hn
      by_cases h : n < 16
      · rw [toHex_small n h]
        simp
      · rw [toHex_step n h]
        have hk : 0 < k := by
          rcases Nat.eq_zero_or_pos k with hk0 | hk0
          · subst hk0
            simp at hn
            omega
          · exact hk0
        have hdiv : n / 16 < 16 ^ k := by
          have h16 : n < 16 ^ k * 16 := by
            calc n < 16 ^ (k + 1) := hn
            _ = 16 ^ k * 16 := by rw [pow_succ]
          omega
        have := ih hk (n / 16) hdiv
        simp only [List.length_append, List.length_singleton]
        omega

theorem hexVal_cons_zero (t : List Char) : hexVal ('0' :: t) = hexVal t := by
  have h0 : hexDigitVal '0' = 0 := by decide
  simp [hexVal, h0]

theorem hexVal_pad (k : Nat) (l : List Char) :
    hexVal (List.replicate k '0' ++ l) = hexVal l := by
  induction k with
  | zero => rfl
  | succ k ih =>
      rw [List.replicate_succ, List.cons_append, hexVal_cons_zero, ih]

theorem format04x_length (n : Nat) (hn : n < 65536) :
    (format04x n).length = 4 := by
  have hlen : (toHex n).length ≤ 4 :=
    toHex_length_le 4 (by omega) n (by norm_num; omega)
  show (List.replicate (4 - (toHex n).length) '0' ++ toHex n).length = 4
  simp only [List.length_append, List.length_replicate]
  omega

theorem hexVal_format04x (n : Nat) : hexVal (format04x n).data = n := by
  show hexVal (List.replicate (4 - (toHex n).length) '0' ++ toHex n) = n
  rw [hexVal_pad, hexVal_toHex]

theorem format04x_chars (n : Nat) :
    ∀ c ∈ (format04x n).data, c ∈ ("0123456789abcdef").data := by
  intro c hc
  rcases List.mem_append.mp hc with hc | hc
  · rw [List.eq_of_mem_replicate hc]
    decide
  · exact toHex_chars n c hc

/-! ### Digit-run lemmas -/

theorem digitRunsAux_sound (l : List Char) :
    ∀ cur, (∀ c ∈ cur, c.isDigit = true) →
      ∀ s ∈ digitRunsAux l cur, s ≠ "" ∧ ∀ c ∈ s.data, c.isDigit = true := by
  induction l with
  | nil =>
      intro cur hcur s hs
      rw [digitRunsAux] at hs
      by_cases hc : cur.isEmpty
      · rw [if_pos hc] at hs
        simp at hs
      · rw [if_neg hc] at hs
        rw [List.mem_singleton] at hs
        subst hs
        constructor
        · intro habs
          have hnil : cur.reverse = ([] : List Char) :=
            congrArg String.data habs
          rw [List.reverse_eq_nil_iff] at hnil
          subst hnil
          simp at hc
        · intro c hc'
          have hc2 : c ∈ cur.reverse := hc'
          exact hcur c (List.mem_reverse.mp hc2)
  | cons c rest ih =>
      intro cur hcur s hs
      rw [digitRunsAux] at hs
      by_cases hd : c.isDigit
      · rw [if_pos hd] at hs
        refine ih (c :: cur) ?_ s hs
        intro x hx
        rcases List.mem_cons.mp hx with rfl | hx
        · exact hd
        · exact hcur x hx
      · rw [if_neg hd] at hs
        by_cases hc : cur.isEmpty
        · rw [if_pos hc] at hs
          exact ih [] (by simp) s hs
        · rw [if_neg hc] at hs
          rcases List.mem_cons.mp hs with rfl | hs
          · constructor
            · intro habs
              have hnil : cur.reverse = ([] : List Char) :=
                congrArg String.data habs
              rw [List.reverse_eq_nil_iff] at hnil
              subst hnil
              simp at hc
            · intro x hx
              have hx2 : x ∈ cur.reverse := hx
              exact hcur x (List.mem_reverse.mp hx2)
          · exact ih [] (by simp) s hs

theorem digitRunsAux_join (l : List Char) :
    ∀ cur, ((digitRunsAux l cur).foldr (fun s acc => s.data ++ acc) []) =
      cur.reverse ++ l.filter (fun c => c.isDigit) := by
  induction l with
  | nil =>
      intro cur
      rw [digitRunsAux]
      by_cases hc : cur.isEmpty
      · rw [if_pos hc]
        rw [List.isEmpty_iff] at hc
        subst hc
        rfl
      · rw [if_neg hc]
        simp
  | cons c rest ih =>
      intro cur
      rw [digitRunsAux]
      by_cases hd : c.isDigit
      · rw [if_pos hd, ih (c :: cur)]
        simp [List.filter_cons, hd]
      · rw [if_neg hd]
        by_cases hc : cur.isEmpty
        · rw [if_pos hc, ih []]
          rw [List.isEmpty_iff] at hc
          subst hc
          simp [List.filter_cons, hd]
        · rw [if_neg hc]
          simp only [List.foldr_cons, ih []]
          simp [List.filter_cons, hd]

theorem digitRuns_sound (l : List Char) :
    ∀ s ∈ digitRuns l, s ≠ "" ∧ ∀ c ∈ s.data, c.isDigit = true :=
  digitRunsAux_sound l [] (by simp)

theorem digitRuns_join (l : List Char) :
    ((digitRuns l).foldr (fun s acc => s.data ++ acc) []) =
      l.filter (fun c => c.isDigit) := by
  rw [digitRuns, digitRunsAux_join l []]
  rfl

theorem digitRuns_no_digits (l : List Char)
    (h : ∀ c ∈ l, c.isDigit = false) : digitRuns l = [] := by
  cases hr : digitRuns l with
  | nil => rfl
  | cons s t =>
      exfalso
      have hs := (digitRuns_sound l s (by rw [hr]; exact List.mem_cons_self s t)).1
      have hj := digitRuns_join l
      rw [hr] at hj
      have hfil : l.filter (fun c => c.isDigit) = [] := by
        rw [List.filter_eq_nil_iff]
        intro c hc
        simp [h c hc]
      rw [hfil] at hj
      simp only [List.foldr_cons] at hj
      rcases List.append_eq_nil.mp hj with ⟨hs', _⟩
      exact hs (by rw [String.ext_iff]; exact hs')

theorem toHex_0x046D : toHex 0x046D = ['4', '6', 'd'] := by
  have e1 : toHex 1133 = toHex 70 ++ [hexDigitChar 13] := by
    rw [toHex_step _ (by norm_num)]
  have e2 : toHex 70 = toHex 4 ++ [hexDigitChar 6] := by
    rw [toHex_step _ (by norm_num)]
  have e3 : toHex 4 = [hexDigitChar 4] := toHex_small 4 (by norm_num)
  rw [show (0x046D : Nat) = 1133 from rfl, e1, e2, e3]
  decide

theorem toHex_0xC08B : toHex 0xC08B = ['c', '0', '8', 'b'] := by
  have e1 : toHex 49291 = toHex 3080 ++ [hexDigitChar 11] := by
    rw [toHex_step _ (by norm_num)]
  have e2 : toHex 3080 = toHex 192 ++ [hexDigitChar 8] := by
    rw [toHex_step _ (by norm_num)]
  have e3 : toHex 192 = toHex 12 ++ [hexDigitChar 0] := by
    rw [toHex_step _ (by norm_num)]
  have e4 : toHex 12 = [hexDigitChar 12] := toHex_small 12 (by norm_num)
  rw [show (0xC08B : Nat) = 49291 from rfl, e1, e2, e3, e4]
  decide

/-- C5: `connect` builds the storage key pair as `vid<VVVV>_pid<PPPP>` —
with both IDs rendered as zero-padded 4-character strings of lowercase
hexadecimal digits that decode back to the given 16-bit values — and
`loc` followed by the maximal decimal-digit runs of the address, in order
of appearance, joined with `_`: each extracted run is a nonempty string of
digits, concatenating the runs in order yields exactly the digits of the
address in order, an address with no digits gives the literal `loc` (and
no error), and the spec's example address produces
`("vid046d_pidc08b", "loc3_4")`. -/
theorem connect_storage_keys :
    (∀ (v p : Nat) (a : String), v < 65536 → p < 65536 →
      (connect v p a).1 = "vid" ++ format04x v ++ "_pid" ++ format04x p ∧
      (format04x v).length = 4 ∧ (format04x p).length = 4 ∧
      hexVal (format04x v).data = v ∧ hexVal (format04x p).data = p ∧
      (∀ c ∈ (format04x v).data, c ∈ ("0123456789abcdef").data) ∧
      (∀ c ∈ (format04x p).data, c ∈ ("0123456789abcdef").data) ∧
      (connect v p a).2 =
        "loc" ++ String.intercalate "_" (digitRuns a.data) ∧
      (∀ s ∈ digitRuns a.data, s ≠ "" ∧ ∀ c ∈ s.data, c.isDigit = true) ∧
      ((digitRuns a.data).foldr (fun s acc => s.data ++ acc) [] =
        a.data.filter (fun c => c.isDigit)) ∧
      ((∀ c ∈ a.data, c.isDigit = false) → (connect v p a).2 = "loc")) ∧
    connect 0x046D 0xC08B "IOService:/AppleUSB/.../3/4" =
      ("vid046d_pidc08b", "loc3_4") := by
  constructor
  · intro v p a hv hp
    refine ⟨rfl, format04x_length v hv, format04x_length p hp,
      hexVal_format04x v, hexVal_format04x p, format04x_chars v,
      format04x_chars p, rfl, digitRuns_sound a.data, digitRuns_join a.data,
      ?_⟩
    intro h
    show "loc" ++ String.intercalate "_" (digitRuns a.data) = "loc"
    rw [digitRuns_no_digits a.data h]
    rfl
  · show ("vid" ++ format04x 0x046D ++ "_pid" ++ format04x 0xC08B,
      "loc" ++ String.intercalate "_"
        (digitRuns ("IOService:/AppleUSB/.../3/4").data)) = _
    rw [format04x, format04x, toHex_0x046D, toHex_0xC08B]
    decide

/-- C5 witness: the key-building theorem applied at vendor `0x046D`,
product `0xC08B` and the spec's example macOS HID address. -/
theorem connect_storage_keys_witness :
    (connect 0x046D 0xC08B "IOService:/AppleUSB/.../3/4").1 =
      "vid" ++ format04x 0x046D ++ "_pid" ++ format04x 0xC08B ∧
    (format04x 0x046D).length = 4 ∧ (format04x 0xC08B).length = 4 ∧
    hexVal (format04x 0x046D).data = 0x046D ∧
    hexVal (format04x 0xC08B).data = 0xC08B ∧
    (∀ c ∈ (format04x 0x046D).data, c ∈ ("0123456789abcdef").data) ∧
    (∀ c ∈ (format04x 0xC08B).data, c ∈ ("0123456789abcdef").data) ∧
    (connect 0x046D 0xC08B "IOService:/AppleUSB/.../3/4").2 =
      "loc" ++ String.intercalate "_"
        (digitRuns ("IOService:/AppleUSB/.../3/4").data) ∧
    (∀ s ∈ digitRuns ("IOService:/AppleUSB/.../3/4").data,
      s ≠ "" ∧ ∀ c ∈ s.data, c.isDigit = true) ∧
    ((digitRuns ("IOService:/AppleUSB/.../3/4").data).foldr
        (fun s acc => s.data ++ acc) [] =
      ("IOService:/AppleUSB/.../3/4").data.filter (fun c => c.isDigit)) ∧
    ((∀ c ∈ ("IOService:/AppleUSB/.../3/4").data, c.isDigit = false) →
      (connect 0x046D 0xC08B "IOService:/AppleUSB/.../3/4").2 = "loc") :=
  connect_storage_keys.1 0x046D 0xC08B "IOService:/AppleUSB/.../3/4"
    (by norm_num) (by norm_num)

end LogitechG502
